import Mathlib

/-!
Shallow embedding of the `simple_fast_todo` service (src/app): the Pydantic
schemas with their content-safety validator (schemas.py), the CRUD layer over
the todos table (crud.py), and the FastAPI endpoint handlers' outcome mapping
(main.py).  The SQLite table is modelled as a `List Todo` in insertion
(primary-key) order; backend faults raised by the session are modelled by an
explicit `DbFault` oracle passed to each operation.
-/

set_option autoImplicit false

namespace SimpleFastTodo

/-! ## Content-safety denylist (schemas.py, XSS_PATTERN)

`XSS_PATTERN = re.compile(r'<script.*?>|onerror=|javascript:|data:text/html', re.IGNORECASE)`
and the validators call `XSS_PATTERN.search(v)`: the pattern may match anywhere
in the string.  `.` in Python regex does not match a newline, so the
`<script.*?>` branch needs a `>` after `<script` with no newline in between. -/

/-- `prefixMatches pat s`: the char list `pat` is an initial segment of `s`. -/
def prefixMatches : List Char → List Char → Bool
  | [], _ => true
  | _ :: _, [] => false
  | p :: ps, c :: cs => p == c && prefixMatches ps cs

/-- Scan for a `'>'` before any newline: the `.*?>` tail of the `<script.*?>`
regex branch, searched from just after the literal `<script`. -/
def scanForGt : List Char → Bool
  | [] => false
  | c :: cs => if c == '>' then true else if c == '\n' then false else scanForGt cs

/-- Search every start position of the (lowercased) text for a match of one of
the four regex branches, as `re.search` does. -/
def xssSearch : List Char → Bool
  | [] => false
  | c :: cs =>
    (prefixMatches "<script".data (c :: cs) && scanForGt ((c :: cs).drop 7))
    || prefixMatches "onerror=".data (c :: cs)
    || prefixMatches "javascript:".data (c :: cs)
    || prefixMatches "data:text/html".data (c :: cs)
    || xssSearch cs

/-- `XSS_PATTERN.search(v)` is truthy for the string `v` (case-insensitive:
both the pattern's letters and the text are taken to lower case). -/
def xssMatch (s : String) : Bool :=
  xssSearch (s.data.map Char.toLower)

/-! ## Data model (models.py)

`Todo`: `id` integer primary key; `title`, `description` nullable strings;
`completed` nullable boolean with insert-default `False`.  (SQLAlchemy columns
are nullable unless declared otherwise, and an update can store NULL.) -/

structure Todo where
  id : Int
  title : Option String
  description : Option String
  completed : Option Bool
deriving Repr, DecidableEq

/-! ## Schemas (schemas.py)

For a JSON body we must distinguish an absent key from an explicit `null`,
so an optional field is `Option (Option _)`: `none` = key absent,
`some none` = explicit null, `some (some v)` = value supplied.
Non-string payloads in `title`/`description` are rejected by Pydantic's type
validation (a generic 422) and are outside this model: the fields below carry
strings only, as the spec's type check defers non-text to schema validation. -/

/-- Wire body of `POST /todos/` before validation (`TodoCreate` input). -/
structure RawCreate where
  title : Option String
  description : Option (Option String)
deriving Repr, DecidableEq

/-- A `TodoCreate` that passed Pydantic validation. -/
structure TodoCreate where
  title : String
  description : Option String
deriving Repr, DecidableEq

/-- Wire body of `PUT /todos/{id}` (`TodoUpdate`): every field optional;
`dict(exclude_unset=True)` later recovers exactly the keys present. -/
structure TodoUpdate where
  title : Option (Option String)
  description : Option (Option String)
  completed : Option (Option Bool)
deriving Repr, DecidableEq

/-- Pydantic validation of `TodoCreate`: `title` is a required field (absent
title fails with a missing-field error); `validate_no_xss` runs on `title` and
`description`, passes `None` through, and raises on an `XSS_PATTERN` match. -/
def validateCreate (r : RawCreate) : Option TodoCreate :=
  match r.title with
  | none => none
  | some t =>
    if xssMatch t then none
    else
      match r.description with
      | none => some ⟨t, none⟩
      | some none => some ⟨t, none⟩
      | some (some d) => if xssMatch d then none else some ⟨t, some d⟩

/-- Pydantic validation of `TodoUpdate`: `validate_no_xss_update` runs on
`title` and `description`; `None` (explicit null) and absent keys pass. -/
def validateUpdate (r : TodoUpdate) : Option TodoUpdate :=
  if (match r.title with | some (some t) => xssMatch t | _ => false) then none
  else if (match r.description with | some (some d) => xssMatch d | _ => false) then none
  else some r

/-! ## CRUD layer (crud.py) -/

/-- A Python value passed as `todo_id`: an `int`, or anything else
(`isinstance(todo_id, int)` is `False`). -/
inductive IdParam where
  | intId (i : Int)
  | nonInt
deriving Repr, DecidableEq

/-- The `isinstance(todo_id, int) and todo_id > 0` guard shared by
`get_todo`, `update_todo` and `delete_todo`. -/
def validId : IdParam → Option Int
  | .intId i => if i ≤ 0 then none else some i
  | .nonInt => none

/-- A Python value passed as `skip` or `limit`. -/
inductive NumParam where
  | intVal (i : Int)
  | nonInt
deriving Repr, DecidableEq

/-- Effective offset in `get_todos`: non-`int` or negative `skip` is
sanitized to 0. -/
def effSkip : NumParam → Nat
  | .intVal i => if i < 0 then 0 else i.toNat
  | .nonInt => 0

/-- Effective row bound in `get_todos`: non-`int` or non-positive `limit`
defaults to 100, then `MAX_LIMIT = 200` is enforced. -/
def effLimit : NumParam → Nat
  | .intVal i => if i ≤ 0 then 100 else if i > 200 then 200 else i.toNat
  | .nonInt => 100

/-- Behaviour of the backing store during one CRUD call: the session works,
raises `IntegrityError` at commit, or raises some other exception. -/
inductive DbFault where
  | ok
  | integrity
  | backend
deriving Repr, DecidableEq

/-- `crud.get_todo`: reject non-positive / non-`int` ids as "not found",
else `db.query(Todo).filter(Todo.id == todo_id).first()`. -/
def get_todo (db : List Todo) (todo_id : IdParam) : Option Todo :=
  match validId todo_id with
  | none => none
  | some i => db.find? (fun t => t.id == i)

/-- `crud.get_todos`: sanitize `skip`/`limit`, then
`db.query(Todo).offset(skip).limit(limit).all()` — a SQLite scan in rowid
(insertion) order, modelled as drop-then-take on the insertion-ordered list.
Any exception is caught and an empty list returned
("Return empty list on error for consistency"). -/
def get_todos (db : List Todo) (skip limit : NumParam) (fault : DbFault) : List Todo :=
  match fault with
  | .ok => (db.drop (effSkip skip)).take (effLimit limit)
  | _ => []

/-- Id the backing store assigns to a fresh row: SQLite's INTEGER PRIMARY KEY
picks one larger than every existing id (modelled as max + 1); the spec's
"server-assigned, monotonic/unique". -/
def newId (db : List Todo) : Int :=
  (db.map Todo.id).foldr max 0 + 1

/-- `crud.create_todo`: `models.Todo(**todo.dict())` (so `completed` takes its
column default `False`), then add/commit/refresh; any exception rolls back and
returns `None`. -/
def create_todo (db : List Todo) (tc : TodoCreate) (fault : DbFault) :
    Option Todo × List Todo :=
  match fault with
  | .ok =>
    let t : Todo :=
      { id := newId db, title := some tc.title, description := tc.description,
        completed := some false }
    (some t, db ++ [t])
  | _ => (none, db)

/-- `update_data = todo.dict(exclude_unset=True)` is non-empty. -/
def hasUpdates (u : TodoUpdate) : Bool :=
  u.title.isSome || u.description.isSome || u.completed.isSome

/-- The `setattr(db_todo, field, value)` loop over `exclude_unset` keys:
fields whose key is absent keep their stored value; a present key stores its
value, `null` included. -/
def applyUpdate (t : Todo) (u : TodoUpdate) : Todo :=
  { id := t.id,
    title := match u.title with | some v => v | none => t.title,
    description := match u.description with | some v => v | none => t.description,
    completed := match u.completed with | some v => v | none => t.completed }

/-- Replace the first row whose id is `i` (the object `first()` returned is
the one mutated and committed). -/
def replaceFirst (db : List Todo) (i : Int) (t2 : Todo) : List Todo :=
  match db with
  | [] => []
  | x :: xs => if x.id == i then t2 :: xs else x :: replaceFirst xs i t2

/-- Remove the first row whose id is `i` (`db.delete(db_todo)`). -/
def eraseFirst (db : List Todo) (i : Int) : List Todo :=
  match db with
  | [] => []
  | x :: xs => if x.id == i then xs else x :: eraseFirst xs i

/-- `crud.update_todo`: id guard, fetch via `get_todo`; if
`exclude_unset` is empty return the record with no commit; else apply the
fields and commit — every exception (`IntegrityError` included, caught by the
generic `except Exception`) rolls back and returns `None`. -/
def update_todo (db : List Todo) (todo_id : IdParam) (u : TodoUpdate)
    (fault : DbFault) : Option Todo × List Todo :=
  match validId todo_id with
  | none => (none, db)
  | some i =>
    match db.find? (fun t => t.id == i) with
    | none => (none, db)
    | some t =>
      if hasUpdates u then
        match fault with
        | .ok =>
          let t2 := applyUpdate t u
          (some t2, replaceFirst db i t2)
        | _ => (none, db)
      else (some t, db)

/-- `crud.delete_todo`: id guard, fetch via `get_todo`, then
`db.delete(db_todo); db.commit()`; any exception rolls back and returns
`None`. -/
def delete_todo (db : List Todo) (todo_id : IdParam) (fault : DbFault) :
    Option Todo × List Todo :=
  match validId todo_id with
  | none => (none, db)
  | some i =>
    match db.find? (fun t => t.id == i) with
    | none => (none, db)
    | some t =>
      match fault with
      | .ok => (some t, eraseFirst db i)
      | _ => (none, db)

/-! ## Endpoint handlers (main.py)

The five externally visible outcomes.  Because every `crud` function catches
its own exceptions and returns `None`/`[]`, the `except IntegrityError` /
`except SQLAlchemyError` arms written in `main.py` are unreachable from the
store layer; the handlers below reflect what actually happens. -/

inductive HandlerResult where
  | success (t : Todo)
  | successList (ts : List Todo)
  | notFound
  | conflict
  | validationFailure
  | internalError
deriving Repr, DecidableEq

/-- `POST /todos/`: FastAPI/Pydantic validation first (422 before the endpoint
body runs, store untouched); then `crud.create_todo`; on `None` the
`db_todo.id` access in the log call raises `AttributeError`, caught by the
endpoint's `except Exception` arm as a 500. -/
def handleCreate (db : List Todo) (r : RawCreate) (fault : DbFault) :
    HandlerResult × List Todo :=
  match validateCreate r with
  | none => (.validationFailure, db)
  | some tc =>
    match create_todo db tc fault with
    | (some t, db2) => (.success t, db2)
    | (none, db2) => (.internalError, db2)

/-- `GET /todos/`: `crud.get_todos` never raises, so the endpoint always
returns 200 with whatever list the store layer produced. -/
def handleList (db : List Todo) (skip limit : NumParam) (fault : DbFault) :
    HandlerResult :=
  .successList (get_todos db skip limit fault)

/-- `GET /todos/{id}`: `None` from `crud.get_todo` becomes 404. -/
def handleGet (db : List Todo) (todo_id : IdParam) : HandlerResult :=
  match get_todo db todo_id with
  | none => .notFound
  | some t => .success t

/-- `PUT /todos/{id}`: body validation first (422, store untouched); then
`crud.update_todo`, whose `None` — invalid id, missing record, or any
persistence exception — becomes 404. -/
def handleUpdate (db : List Todo) (todo_id : IdParam) (r : TodoUpdate)
    (fault : DbFault) : HandlerResult × List Todo :=
  match validateUpdate r with
  | none => (.validationFailure, db)
  | some u =>
    match update_todo db todo_id u fault with
    | (none, db2) => (.notFound, db2)
    | (some t, db2) => (.success t, db2)

/-- `DELETE /todos/{id}`: `None` from `crud.delete_todo` becomes 404. -/
def handleDelete (db : List Todo) (todo_id : IdParam) (fault : DbFault) :
    HandlerResult × List Todo :=
  match delete_todo db todo_id fault with
  | (none, db2) => (.notFound, db2)
  | (some t, db2) => (.success t, db2)

/-! ## Shared example rows (used by concrete witnesses) -/

def exTodo1 : Todo := ⟨1, some "buy milk", some "2 liters", some false⟩

def exTodo2 : Todo := ⟨2, some "write report", none, some true⟩

def exTodo3 : Todo := ⟨3, some "call bank", none, some false⟩

def exDb : List Todo := [exTodo1, exTodo2, exTodo3]

/-! ## Shared helper lemmas -/

theorem get_todo_intId_eq_some {db : List Todo} {i : Int} {t : Todo}
    (h : get_todo db (.intId i) = some t) :
    0 < i ∧ db.find? (fun x => x.id == i) = some t := by
  unfold get_todo validId at h
  by_cases hi : i ≤ 0
  · simp [hi] at h
  · exact ⟨by omega, by simpa [hi] using h⟩

theorem applyUpdate_id (t : Todo) (u : TodoUpdate) : (applyUpdate t u).id = t.id := rfl

theorem find?_replaceFirst_self {db : List Todo} {i : Int} {t t2 : Todo}
    (h : db.find? (fun x => x.id == i) = some t) (h2 : t2.id = i) :
    (replaceFirst db i t2).find? (fun x => x.id == i) = some t2 := by
  induction db with
  | nil => simp at h
  | cons x xs ih =>
    by_cases hx : x.id = i
    · simp [replaceFirst, hx, h2]
    · rw [List.find?_cons_of_neg _ (by simpa using hx)] at h
      simp only [replaceFirst, beq_iff_eq, hx, if_false]
      rw [List.find?_cons_of_neg _ (by simpa using hx)]
      exact ih h

theorem find?_replaceFirst_other {i j : Int} {t2 : Todo} (db : List Todo)
    (h2 : t2.id = i) (hij : j ≠ i) :
    (replaceFirst db i t2).find? (fun x => x.id == j) = db.find? (fun x => x.id == j) := by
  induction db with
  | nil => rfl
  | cons x xs ih =>
    by_cases hx : x.id = i
    · have hxj : ¬ x.id = j := by rw [hx]; exact fun h => hij h.symm
      have ht2j : ¬ t2.id = j := by rw [h2]; exact fun h => hij h.symm
      simp only [replaceFirst, beq_iff_eq, hx, if_true]
      rw [List.find?_cons_of_neg _ (by simpa using ht2j),
        List.find?_cons_of_neg _ (by simpa using hxj)]
    · simp only [replaceFirst, beq_iff_eq, hx, if_false]
      by_cases hxj : x.id = j
      · rw [List.find?_cons_of_pos _ (by simpa using hxj),
          List.find?_cons_of_pos _ (by simpa using hxj)]
      · rw [List.find?_cons_of_neg _ (by simpa using hxj),
          List.find?_cons_of_neg _ (by simpa using hxj)]
        exact ih

theorem find?_eraseFirst_self {db : List Todo} {i : Int}
    (hnd : (db.map Todo.id).Nodup) :
    (eraseFirst db i).find? (fun x => x.id == i) = none := by
  induction db with
  | nil => rfl
  | cons x xs ih =>
    rw [List.map_cons, List.nodup_cons] at hnd
    by_cases hx : x.id = i
    · simp only [eraseFirst, beq_iff_eq, hx, if_true]
      refine List.find?_eq_none.mpr (fun y hy => ?_)
      have : y.id ≠ x.id := fun hyx => hnd.1 (hyx ▸ List.mem_map_of_mem Todo.id hy)
      simpa [hx] using fun hyi => this (by rw [hyi, hx])
    · simp only [eraseFirst, beq_iff_eq, hx, if_false]
      rw [List.find?_cons_of_neg _ (by simpa using hx)]
      exact ih hnd.2

theorem length_eraseFirst {db : List Todo} {i : Int} {t : Todo}
    (h : db.find? (fun x => x.id == i) = some t) :
    (eraseFirst db i).length + 1 = db.length := by
  induction db with
  | nil => simp at h
  | cons x xs ih =>
    by_cases hx : x.id = i
    · simp [eraseFirst, hx]
    · rw [List.find?_cons_of_neg _ (by simpa using hx)] at h
      simp only [eraseFirst, beq_iff_eq, hx, if_false, List.length_cons]
      rw [← ih h]

/-- Specification of a successful, non-empty `update_todo` on an existing
record: the result is the record with the supplied fields applied, the store
now yields that record for the same id, and every other id is untouched. -/
theorem update_todo_ok_spec {db : List Todo} {i : Int} {t : Todo} (u : TodoUpdate)
    (h : get_todo db (.intId i) = some t) (hu : hasUpdates u = true) :
    update_todo db (.intId i) u DbFault.ok =
      (some (applyUpdate t u), replaceFirst db i (applyUpdate t u)) ∧
    get_todo (replaceFirst db i (applyUpdate t u)) (.intId i) = some (applyUpdate t u) ∧
    ∀ j : Int, j ≠ i →
      get_todo (replaceFirst db i (applyUpdate t u)) (.intId j) = get_todo db (.intId j) := by
  obtain ⟨hi, hf⟩ := get_todo_intId_eq_some h
  have hnle : ¬ i ≤ 0 := by omega
  have hti : t.id = i := by simpa using List.find?_some hf
  have hid : (applyUpdate t u).id = i := by rw [applyUpdate_id, hti]
  refine ⟨?_, ?_, ?_⟩
  · simp [update_todo, validId, hnle, hf, hu]
  · simp only [get_todo, validId, hnle, if_false]
    exact find?_replaceFirst_self hf hid
  · intro j hj
    by_cases hj0 : j ≤ 0
    · simp [get_todo, validId, hj0]
    · simp only [get_todo, validId, hj0, if_false]
      exact find?_replaceFirst_other db hid hj

/-! ## Claims -/

/-- C1: for every create or update request whose supplied `title` or
`description` text matches the case-insensitive content-safety denylist
(`XSS_PATTERN`), the request is rejected with a validation failure (422) and
the store is left exactly as it was: no record is persisted or modified. -/
theorem C1_xss_denylist_rejects (db : List Todo) (fault : DbFault) (rc : RawCreate)
    (tid : IdParam) (ru : TodoUpdate)
    (hc : (∃ t, rc.title = some t ∧ xssMatch t = true) ∨
          (∃ d, rc.description = some (some d) ∧ xssMatch d = true))
    (hup : (∃ t, ru.title = some (some t) ∧ xssMatch t = true) ∨
           (∃ d, ru.description = some (some d) ∧ xssMatch d = true)) :
    handleCreate db rc fault = (.validationFailure, db) ∧
    handleUpdate db tid ru fault = (.validationFailure, db) := by
  constructor
  · have hv : validateCreate rc = none := by
      obtain ⟨tt, dd⟩ := rc
      rcases hc with ⟨t, ht, hxss⟩ | ⟨d, hd, hxss⟩
      · simp only at ht
        cases ht
        simp [validateCreate, hxss]
      · simp only at hd
        cases hd
        cases tt with
        | none => rfl
        | some t' =>
          by_cases hxt : xssMatch t' <;> simp [validateCreate, hxt, hxss]
    simp [handleCreate, hv]
  · have hv : validateUpdate ru = none := by
      rcases hup with ⟨t, ht, hxss⟩ | ⟨d, hd, hxss⟩
      · simp [validateUpdate, ht, hxss]
      · unfold validateUpdate
        rw [hd]
        split
        · rfl
        · simp [hxss]
    simp [handleUpdate, hv]

theorem C1_xss_denylist_rejects_witness :
    handleCreate exDb ⟨some "<script>alert(1)</script>", none⟩ DbFault.ok =
      (.validationFailure, exDb) ∧
    handleUpdate exDb (.intId 1) ⟨none, some (some "x onerror=1"), none⟩ DbFault.ok =
      (.validationFailure, exDb) :=
  C1_xss_denylist_rejects exDb DbFault.ok ⟨some "<script>alert(1)</script>", none⟩
    (.intId 1) ⟨none, some (some "x onerror=1"), none⟩
    (Or.inl ⟨"<script>alert(1)</script>", rfl, by decide⟩)
    (Or.inr ⟨"x onerror=1", rfl, by decide⟩)

/-- C2 counterexample: a create with `title = ""` is NOT rejected — the
Pydantic schema's `title: str` has no non-emptiness constraint and the
denylist does not match the empty string, so the record is persisted with an
empty title. -/
theorem C2_empty_title_accepted :
    handleCreate [] ⟨some "", none⟩ DbFault.ok =
      (HandlerResult.success ⟨1, some "", none, some false⟩,
       [⟨1, some "", none, some false⟩]) := by decide

/-- C2 (amended): `title` is required on create — a create whose `title` key
is absent is rejected with a validation failure and no record is stored; but
the empty string is accepted (no non-emptiness check exists in the code). -/
theorem C2_title_required (db : List Todo) (d : Option (Option String))
    (fault : DbFault) :
    handleCreate db ⟨none, d⟩ fault = (.validationFailure, db) := rfl

/-- C3: pagination parameters of the list operation are clamped — a negative
(or non-integer) `skip` acts as 0, a non-positive (or non-integer) `limit`
acts as the default 100, a `limit` above 200 acts as 200; in particular
`list(skip=0, limit=500)` returns at most 200 records. -/
theorem C3_pagination_clamped (db : List Todo) (i j l : Int)
    (hi : i < 0) (hj : 200 < j) (hl : l ≤ 0) :
    get_todos db (.intVal i) (.intVal j) DbFault.ok = db.take 200 ∧
    get_todos db .nonInt .nonInt DbFault.ok = db.take 100 ∧
    get_todos db (.intVal 0) (.intVal l) DbFault.ok = db.take 100 ∧
    (get_todos db (.intVal 0) (.intVal 500) DbFault.ok).length ≤ 200 := by
  have hj0 : ¬ j ≤ 0 := by omega
  refine ⟨?_, ?_, ?_, ?_⟩
  · simp [get_todos, effSkip, effLimit, hi, hj0, hj]
  · simp [get_todos, effSkip, effLimit]
  · simp [get_todos, effSkip, effLimit, hl]
  · simp [get_todos, effSkip, effLimit]

theorem C3_pagination_clamped_witness :
    ((-1 : Int) < 0 ∧ (200 : Int) < 500 ∧ (0 : Int) ≤ 0) ∧
    (get_todos exDb (.intVal (-1)) (.intVal 500) DbFault.ok = exDb.take 200 ∧
     get_todos exDb .nonInt .nonInt DbFault.ok = exDb.take 100 ∧
     get_todos exDb (.intVal 0) (.intVal 0) DbFault.ok = exDb.take 100 ∧
     (get_todos exDb (.intVal 0) (.intVal 500) DbFault.ok).length ≤ 200) :=
  ⟨⟨by decide, by decide, by decide⟩,
   C3_pagination_clamped exDb (-1) 500 0 (by decide) (by decide) (by decide)⟩

/-- C4: the update operation applies only the keys explicitly present — an
empty partial-field set is a no-op success returning the record unchanged with
the store untouched (whatever the backend would have done at commit, since no
commit happens), and `update(id, {completed: true})` changes only `completed`:
the stored `title` and `description` stay as before, and every other id's
record is untouched. -/
theorem C4_partial_update_frame (db : List Todo) (i j : Int) (t : Todo)
    (fault : DbFault) (h : get_todo db (.intId i) = some t) (hj : j ≠ i) :
    update_todo db (.intId i) ⟨none, none, none⟩ fault = (some t, db) ∧
    handleUpdate db (.intId i) ⟨none, none, none⟩ fault = (.success t, db) ∧
    (update_todo db (.intId i) ⟨none, none, some (some true)⟩ DbFault.ok).1 =
      some ⟨t.id, t.title, t.description, some true⟩ ∧
    get_todo (update_todo db (.intId i) ⟨none, none, some (some true)⟩ DbFault.ok).2
      (.intId i) = some ⟨t.id, t.title, t.description, some true⟩ ∧
    get_todo (update_todo db (.intId i) ⟨none, none, some (some true)⟩ DbFault.ok).2
      (.intId j) = get_todo db (.intId j) := by
  obtain ⟨hi, hf⟩ := get_todo_intId_eq_some h
  have hnle : ¬ i ≤ 0 := by omega
  have h1 : update_todo db (.intId i) ⟨none, none, none⟩ fault = (some t, db) := by
    simp [update_todo, validId, hnle, hf, hasUpdates]
  obtain ⟨h2, h3, h4⟩ :=
    update_todo_ok_spec ⟨none, none, some (some true)⟩ h rfl
  have happ : applyUpdate t ⟨none, none, some (some true)⟩ =
      ⟨t.id, t.title, t.description, some true⟩ := rfl
  rw [happ] at h2 h3 h4
  refine ⟨h1, ?_, ?_, ?_, ?_⟩
  · simp [handleUpdate, validateUpdate, h1]
  · simp [h2]
  · simpa [h2] using h3
  · simpa [h2] using h4 j hj

theorem C4_partial_update_frame_witness :
    (get_todo exDb (.intId 1) = some exTodo1 ∧ (2 : Int) ≠ 1) ∧
    (update_todo exDb (.intId 1) ⟨none, none, none⟩ DbFault.integrity =
       (some exTodo1, exDb) ∧
     handleUpdate exDb (.intId 1) ⟨none, none, none⟩ DbFault.integrity =
       (.success exTodo1, exDb) ∧
     (update_todo exDb (.intId 1) ⟨none, none, some (some true)⟩ DbFault.ok).1 =
       some ⟨exTodo1.id, exTodo1.title, exTodo1.description, some true⟩ ∧
     get_todo (update_todo exDb (.intId 1) ⟨none, none, some (some true)⟩ DbFault.ok).2
       (.intId 1) = some ⟨exTodo1.id, exTodo1.title, exTodo1.description, some true⟩ ∧
     get_todo (update_todo exDb (.intId 1) ⟨none, none, some (some true)⟩ DbFault.ok).2
       (.intId 2) = get_todo exDb (.intId 2)) :=
  ⟨⟨by decide, by decide⟩,
   C4_partial_update_frame exDb 1 2 exTodo1 DbFault.integrity (by decide) (by decide)⟩

/-- C5: a non-integer, zero, or negative id, and a positive id with no
corresponding record, are all treated identically by get, update and delete —
the crud layer returns its "not found" signal (`None`), which the handlers map
to 404; no distinct malformed-id status exists, and every function is total
(no crash).  The update body is assumed to pass schema validation, since
FastAPI validates the body before the id is ever consulted. -/
theorem C5_invalid_id_not_found (db : List Todo) (p : IdParam) (u : TodoUpdate)
    (fault : DbFault) (hvu : validateUpdate u = some u)
    (h : (∃ i, p = .intId i ∧ i ≤ 0) ∨ p = .nonInt ∨
         (∃ i, p = .intId i ∧ 0 < i ∧ db.find? (fun t => t.id == i) = none)) :
    handleGet db p = .notFound ∧
    handleUpdate db p u fault = (.notFound, db) ∧
    handleDelete db p fault = (.notFound, db) := by
  have hg : get_todo db p = none ∧ update_todo db p u fault = (none, db) ∧
      delete_todo db p fault = (none, db) := by
    rcases h with ⟨i, rfl, hle⟩ | rfl | ⟨i, rfl, hpos, hnone⟩
    · have hv : validId (.intId i) = none := by simp [validId, hle]
      exact ⟨by simp [get_todo, hv], by simp [update_todo, hv],
        by simp [delete_todo, hv]⟩
    · exact ⟨rfl, rfl, rfl⟩
    · have hnle : ¬ i ≤ 0 := by omega
      have hv : validId (.intId i) = some i := by simp [validId, hnle]
      exact ⟨by simp [get_todo, hv, hnone], by simp [update_todo, hv, hnone],
        by simp [delete_todo, hv, hnone]⟩
  exact ⟨by simp [handleGet, hg.1], by simp [handleUpdate, hvu, hg.2.1],
    by simp [handleDelete, hg.2.2]⟩

theorem C5_invalid_id_not_found_witness :
    (validateUpdate ⟨none, none, some (some true)⟩ =
       some ⟨none, none, some (some true)⟩) ∧
    (handleGet exDb (.intId (-1)) = .notFound ∧
     handleUpdate exDb (.intId (-1)) ⟨none, none, some (some true)⟩ DbFault.ok =
       (.notFound, exDb) ∧
     handleDelete exDb (.intId (-1)) DbFault.ok = (.notFound, exDb)) :=
  ⟨by decide,
   C5_invalid_id_not_found exDb (.intId (-1)) ⟨none, none, some (some true)⟩
     DbFault.ok (by decide) (Or.inl ⟨-1, rfl, by decide⟩)⟩

/-- C6 (code bug, evaluated at the failing input): an update of an existing
record whose commit raises `IntegrityError` is surfaced as 404 not-found, not
as 409 conflict — `crud.update_todo`'s generic `except Exception` catches the
`IntegrityError`, rolls back and returns `None` (the store is indeed left
unchanged), so `main.py`'s `except IntegrityError` arm, which would produce
the 409 the spec promises, is unreachable. -/
theorem C6_integrity_violation_surfaced_as_notFound :
    handleUpdate exDb (.intId 1) ⟨some (some "new title"), none, none⟩
      DbFault.integrity = (.notFound, exDb) ∧
    (handleUpdate exDb (.intId 1) ⟨some (some "new title"), none, none⟩
      DbFault.integrity).1 ≠ HandlerResult.conflict := by decide

/-- C7 counterexample: a backend fault during list is NOT surfaced as an
internal failure — `crud.get_todos` catches every exception and returns `[]`
("Return empty list on error for consistency"), so the endpoint answers 200
with an empty array. -/
theorem C7_backend_fault_list_counterexample :
    handleList exDb (.intVal 0) (.intVal 100) DbFault.backend =
      .successList [] ∧
    handleList exDb (.intVal 0) (.intVal 100) DbFault.backend ≠
      .internalError := by decide

/-- C7 (amended): for every list request during which the persistence backend
faults, the store layer catches the fault and returns an empty list, so the
caller receives a success response with an empty array (200-equivalent), never
an internal failure. -/
theorem C7_backend_fault_list_empty_success (db : List Todo)
    (skip limit : NumParam) (fault : DbFault) (hf : fault ≠ DbFault.ok) :
    handleList db skip limit fault = .successList [] ∧
    handleList db skip limit fault ≠ .internalError := by
  cases fault with
  | ok => exact absurd rfl hf
  | integrity => exact ⟨rfl, by simp [handleList, get_todos]⟩
  | backend => exact ⟨rfl, by simp [handleList, get_todos]⟩

theorem C7_backend_fault_list_empty_success_witness :
    (DbFault.backend ≠ DbFault.ok) ∧
    (handleList exDb (.intVal 3) (.intVal 50) DbFault.backend =
       .successList [] ∧
     handleList exDb (.intVal 3) (.intVal 50) DbFault.backend ≠
       .internalError) :=
  ⟨by decide,
   C7_backend_fault_list_empty_success exDb (.intVal 3) (.intVal 50)
     DbFault.backend (by decide)⟩

/-- C8: for an existing record id (ids are unique, being the primary key),
delete removes exactly one row and returns the record exactly as it stood
immediately before removal, and a subsequent get of the same id yields
not-found. -/
theorem C8_delete_then_get (db : List Todo) (i : Int) (t : Todo)
    (h : get_todo db (.intId i) = some t) (hnd : (db.map Todo.id).Nodup) :
    (delete_todo db (.intId i) DbFault.ok).1 = some t ∧
    (delete_todo db (.intId i) DbFault.ok).2.length + 1 = db.length ∧
    get_todo (delete_todo db (.intId i) DbFault.ok).2 (.intId i) = none ∧
    handleGet (delete_todo db (.intId i) DbFault.ok).2 (.intId i) = .notFound := by
  obtain ⟨hi, hf⟩ := get_todo_intId_eq_some h
  have hnle : ¬ i ≤ 0 := by omega
  have hd : delete_todo db (.intId i) DbFault.ok = (some t, eraseFirst db i) := by
    simp [delete_todo, validId, hnle, hf]
  rw [hd]
  refine ⟨rfl, length_eraseFirst hf, ?_, ?_⟩
  · simp [get_todo, validId, hnle, find?_eraseFirst_self hnd]
  · simp [handleGet, get_todo, validId, hnle, find?_eraseFirst_self hnd]

theorem C8_delete_then_get_witness :
    (get_todo exDb (.intId 2) = some exTodo2 ∧ (exDb.map Todo.id).Nodup) ∧
    ((delete_todo exDb (.intId 2) DbFault.ok).1 = some exTodo2 ∧
     (delete_todo exDb (.intId 2) DbFault.ok).2.length + 1 = exDb.length ∧
     get_todo (delete_todo exDb (.intId 2) DbFault.ok).2 (.intId 2) = none ∧
     handleGet (delete_todo exDb (.intId 2) DbFault.ok).2 (.intId 2) = .notFound) :=
  ⟨⟨by decide, by decide⟩,
   C8_delete_then_get exDb 2 exTodo2 (by decide) (by decide)⟩

/-- C9: the list operation returns records in insertion (primary-key) order
with the clamped skip offset and limit bound applied to that ordering: the
result is an order-preserving sublist of the store, its k-th element is the
store's element at index `effSkip skip + k`, and its length is exactly the
limit bound capped by the rows remaining past the offset. -/
theorem C9_list_insertion_order (db : List Todo) (skip limit : NumParam)
    (k : Nat) (hk : k < (get_todos db skip limit DbFault.ok).length) :
    (get_todos db skip limit DbFault.ok).Sublist db ∧
    (get_todos db skip limit DbFault.ok).length =
      min (effLimit limit) (db.length - effSkip skip) ∧
    (get_todos db skip limit DbFault.ok)[k]? = db[effSkip skip + k]? := by
  refine ⟨?_, ?_, ?_⟩
  · exact (List.take_sublist _ _).trans (List.drop_sublist _ _)
  · simp [get_todos]
  · have hk' : k < effLimit limit := by
      simp [get_todos] at hk
      omega
    show ((db.drop (effSkip skip)).take (effLimit limit))[k]? = _
    rw [List.getElem?_take_of_lt hk', List.getElem?_drop]

theorem C9_list_insertion_order_witness :
    (0 < (get_todos exDb (.intVal 1) (.intVal 1) DbFault.ok).length) ∧
    ((get_todos exDb (.intVal 1) (.intVal 1) DbFault.ok).Sublist exDb ∧
     (get_todos exDb (.intVal 1) (.intVal 1) DbFault.ok).length =
       min (effLimit (.intVal 1)) (exDb.length - effSkip (.intVal 1)) ∧
     (get_todos exDb (.intVal 1) (.intVal 1) DbFault.ok)[0]? =
       exDb[effSkip (.intVal 1) + 0]?) :=
  ⟨by decide, C9_list_insertion_order exDb (.intVal 1) (.intVal 1) 0 (by decide)⟩

/-- C10: for an existing record, an update whose body explicitly carries
`description: null` stores `null` (clearing the description), whereas an
update whose body omits the `description` key (here a completed-only update)
leaves the stored description unchanged — `dict(exclude_unset=True)` preserves
the absent-versus-explicit-null distinction end to end. -/
theorem C10_null_vs_absent_description (db : List Todo) (i : Int) (t : Todo)
    (h : get_todo db (.intId i) = some t) :
    (handleUpdate db (.intId i) ⟨none, some none, none⟩ DbFault.ok).1 =
      .success ⟨t.id, t.title, none, t.completed⟩ ∧
    get_todo (handleUpdate db (.intId i) ⟨none, some none, none⟩ DbFault.ok).2
      (.intId i) = some ⟨t.id, t.title, none, t.completed⟩ ∧
    (handleUpdate db (.intId i) ⟨none, none, some (some true)⟩ DbFault.ok).1 =
      .success ⟨t.id, t.title, t.description, some true⟩ ∧
    get_todo (handleUpdate db (.intId i) ⟨none, none, some (some true)⟩ DbFault.ok).2
      (.intId i) = some ⟨t.id, t.title, t.description, some true⟩ := by
  obtain ⟨hn1, hg1, _⟩ :=
    update_todo_ok_spec ⟨none, some none, none⟩ h rfl
  obtain ⟨hn2, hg2, _⟩ :=
    update_todo_ok_spec ⟨none, none, some (some true)⟩ h rfl
  have ha1 : applyUpdate t ⟨none, some none, none⟩ =
      ⟨t.id, t.title, none, t.completed⟩ := rfl
  have ha2 : applyUpdate t ⟨none, none, some (some true)⟩ =
      ⟨t.id, t.title, t.description, some true⟩ := rfl
  rw [ha1] at hn1 hg1
  rw [ha2] at hn2 hg2
  refine ⟨?_, ?_, ?_, ?_⟩
  · simp [handleUpdate, validateUpdate, hn1]
  · simpa [handleUpdate, validateUpdate, hn1] using hg1
  · simp [handleUpdate, validateUpdate, hn2]
  · simpa [handleUpdate, validateUpdate, hn2] using hg2

theorem C10_null_vs_absent_description_witness :
    (get_todo exDb (.intId 1) = some exTodo1) ∧
    ((handleUpdate exDb (.intId 1) ⟨none, some none, none⟩ DbFault.ok).1 =
       .success ⟨exTodo1.id, exTodo1.title, none, exTodo1.completed⟩ ∧
     get_todo (handleUpdate exDb (.intId 1) ⟨none, some none, none⟩ DbFault.ok).2
       (.intId 1) = some ⟨exTodo1.id, exTodo1.title, none, exTodo1.completed⟩ ∧
     (handleUpdate exDb (.intId 1) ⟨none, none, some (some true)⟩ DbFault.ok).1 =
       .success ⟨exTodo1.id, exTodo1.title, exTodo1.description, some true⟩ ∧
     get_todo (handleUpdate exDb (.intId 1) ⟨none, none, some (some true)⟩
       DbFault.ok).2 (.intId 1) =
       some ⟨exTodo1.id, exTodo1.title, exTodo1.description, some true⟩) :=
  ⟨by decide, C10_null_vs_absent_description exDb 1 exTodo1 (by decide)⟩

end SimpleFastTodo
